import Mathlib

/-!
Verification of the JIT column-drawing core of `src/doom_src/src/doom/r_jit.c`
(with its header `r_jit.h`).

The development shallowly embeds:
* the machine-code bytes emitted by `R_JIT_GenerateDrawColumn` for the ARM64
  and x86_64 backends (the exact words/bytes the C code writes);
* the run-time semantics of the generated loops, obtained by decoding those
  words (register-transfer level, machine integers as `Nat` with explicit
  `% 2^w` where the hardware wraps);
* the generation state machine (buffer, baked colormap, compiled entry point);
* the event order of a generation call (write-protect toggling, instruction
  cache invalidation, publication of the entry point);
* the mode controller, frame hooks, statistics and CSV logging
  (`R_JIT_FrameStart`, `R_JIT_FrameEnd`, `R_JIT_Toggle`,
  `R_JIT_ToggleAutoSwitch`), with wall-clock instants modelled as `ℚ` seconds.
-/

namespace RJit

/-! ### Emitted machine code

`R_JIT_GenerateDrawColumn` (ARM64 version, r_jit.c lines 279-391) writes 21
32-bit instruction words starting at the base of the 4096-byte JIT buffer.
The words below are transcribed from the C code; the four words at indices
2..5 carry the 16-bit chunks of the baked colormap address in their
`imm16` fields (bits 5..20), exactly as computed in the source
(`0xd2800013 | ((cmap_addr & 0xFFFF) << 5)` and the three `movk` lines). -/

/-- The word emitted for the texture-index computation (r_jit.c line 338,
`code[i++] = 0x53104ec8`, commented there as `lsr w8, w22, #16`). -/
def arm64TexWord : Nat := 0x53104ec8

/-- The word emitted for the mask step (r_jit.c line 340,
`code[i++] = 0x12001908`, commented as `and w8, w8, #127`). -/
def arm64AndWord : Nat := 0x12001908

/-- Emitted conditional-branch word (r_jit.c line 367):
`0x5400000a | ((offset & 0x7FFFF) << 5)` with `offset = loop_start - i`,
where `loop_start = 9` and the branch is emitted at index 17, so
`offset = -8` as a C `int`. -/
def arm64BranchWord : Nat :=
  0x5400000a ||| ((Int.land ((9 : Int) - 17) 0x7FFFF).toNat <<< 5)

/-- The 21 ARM64 instruction words written by `R_JIT_GenerateDrawColumn`
for a baked colormap address `cmap_addr` (r_jit.c lines 302-375), in order. -/
def arm64CodeWords (cmap_addr : Nat) : List Nat :=
  [ 0xa9bf4ff3,                                           -- index 0, prologue store pair
    0xa9bf57f5,                                           -- index 1, prologue store pair
    0xd2800013 ||| ((cmap_addr &&& 0xFFFF) <<< 5),        -- movz x19, #imm16_0
    0xf2a00013 ||| (((cmap_addr >>> 16) &&& 0xFFFF) <<< 5), -- movk x19, #imm16_1, lsl 16
    0xf2c00013 ||| (((cmap_addr >>> 32) &&& 0xFFFF) <<< 5), -- movk x19, #imm16_2, lsl 32
    0xf2e00013 ||| (((cmap_addr >>> 48) &&& 0xFFFF) <<< 5), -- movk x19, #imm16_3, lsl 48
    0xd2802814,                                           -- movz x20, #320
    0xaa0003f5,                                           -- mov x21, x0
    0x2a0503f6,                                           -- mov w22, w5
    arm64TexWord,                                         -- index 9, loop start
    arm64AndWord,
    0x38686829,                                           -- ldrb w9, [x1, x8]
    0x38696a69,                                           -- ldrb w9, [x19, x9]
    0x390002a9,                                           -- strb w9, [x21]
    0x8b1402b5,                                           -- add x21, x21, x20
    0x0b0402d6,                                           -- add w22, w22, w4
    0x71000463,                                           -- subs w3, w3, #1
    arm64BranchWord,                                      -- index 17, b.ge loop
    0xa8c157f5,                                           -- epilogue load pair
    0xa8c14ff3,                                           -- epilogue load pair
    0xd65f03c0 ]                                          -- ret

/-- The x86_64 template bytes `x86_64_jit_template` (r_jit.c lines 397-447),
with the 8 placeholder bytes for the colormap address at offsets 7..14. -/
def x86_64_jit_template : List Nat :=
  [ 0x53,                                               -- push rbx
    0x41, 0x54,                                         -- push r12
    0x41, 0x55,                                         -- push r13
    0x49, 0xbc, 0x00, 0x00, 0x00, 0x00, 0x00, 0x00, 0x00, 0x00, -- mov r12, imm64
    0x41, 0xbd, 0x40, 0x01, 0x00, 0x00,                 -- mov r13d, 320
    0x44, 0x89, 0xc8,                                   -- mov eax, r9d
    0x89, 0xc3,                                         -- mov ebx, eax (loop start)
    0xc1, 0xeb, 0x10,                                   -- shr ebx, 16
    0x83, 0xe3, 0x7f,                                   -- and ebx, 127
    0x0f, 0xb6, 0x1c, 0x1e,                             -- movzx ebx, byte [rsi + rbx]
    0x41, 0x0f, 0xb6, 0x1c, 0x1c,                       -- movzx ebx, byte [r12 + rbx]
    0x88, 0x1f,                                         -- mov [rdi], bl
    0x4c, 0x01, 0xef,                                   -- add rdi, r13
    0x44, 0x01, 0xc0,                                   -- add eax, r8d
    0xff, 0xc9,                                         -- dec ecx
    0x79, 0xe3,                                         -- jns loop start
    0x41, 0x5d,                                         -- pop r13
    0x41, 0x5c,                                         -- pop r12
    0x5b,                                               -- pop rbx
    0xc3 ]                                              -- ret

/-- `X86_64_COLORMAP_OFFSET` (r_jit.c line 449). -/
def X86_64_COLORMAP_OFFSET : Nat := 7

/-- The 8 bytes of `cmap_addr` in little-endian order, as stored by
`memcpy(jit_code + X86_64_COLORMAP_OFFSET, &cmap_addr, 8)` on x86_64
(r_jit.c line 468). -/
def le64Bytes (a : Nat) : List Nat :=
  [ a &&& 0xFF, (a >>> 8) &&& 0xFF, (a >>> 16) &&& 0xFF, (a >>> 24) &&& 0xFF,
    (a >>> 32) &&& 0xFF, (a >>> 40) &&& 0xFF, (a >>> 48) &&& 0xFF,
    (a >>> 56) &&& 0xFF ]

/-- Buffer content written by the x86_64 backend: the template with the
8 address bytes patched in at offsets 7..14 (r_jit.c lines 464-468). -/
def x86PatchedCode (a : Nat) : List Nat :=
  x86_64_jit_template.take 7 ++ le64Bytes a ++ x86_64_jit_template.drop 15

/-! ### Decoding the embedded immediates -/

/-- `imm16` field (bits 5..20) of an ARM64 `movz`/`movk` instruction word. -/
def movImm16 (w : Nat) : Nat := (w >>> 5) &&& 0xFFFF

/-- The 64-bit value the emitted `movz`/`movk` sequence leaves in `x19`:
chunk 0 from word 2, chunk 1 from word 3 shifted 16, chunk 2 from word 4
shifted 32, chunk 3 from word 5 shifted 48. -/
def arm64ExtractAddr (ws : List Nat) : Nat :=
  movImm16 (ws.getD 2 0) + movImm16 (ws.getD 3 0) * 2 ^ 16 +
    movImm16 (ws.getD 4 0) * 2 ^ 32 + movImm16 (ws.getD 5 0) * 2 ^ 48

/-- Little-endian 64-bit read of 8 bytes of `bs` starting at offset `off`. -/
def readLE64 (bs : List Nat) (off : Nat) : Nat :=
  bs.getD off 0 + bs.getD (off + 1) 0 * 2 ^ 8 + bs.getD (off + 2) 0 * 2 ^ 16 +
    bs.getD (off + 3) 0 * 2 ^ 24 + bs.getD (off + 4) 0 * 2 ^ 32 +
    bs.getD (off + 5) 0 * 2 ^ 40 + bs.getD (off + 6) 0 * 2 ^ 48 +
    bs.getD (off + 7) 0 * 2 ^ 56

/-- Decoding one `movz`/`movk` word recovers the 16-bit chunk placed in its
immediate field: each of the four base opcodes used by the generator has the
shape `2^21 * hi + lo` with `lo < 32`, i.e. its bits 5..20 are zero. -/
theorem movImm16_encode (hi lo c : Nat) (hlo : lo < 32) (hc : c < 2 ^ 16) :
    movImm16 ((2 ^ 21 * hi + lo) ||| (c <<< 5)) = c := by
  have h1 : c <<< 5 = 2 ^ 5 * c := by
    rw [Nat.shiftLeft_eq]; ring
  have h2 : 2 ^ 5 * c + lo = 2 ^ 5 * c ||| lo :=
    Nat.mul_add_lt_is_or (by omega) c
  have h3 : 2 ^ 21 * hi + (2 ^ 5 * c + lo) = 2 ^ 21 * hi ||| (2 ^ 5 * c + lo) :=
    Nat.mul_add_lt_is_or (by omega) hi
  have h4 : 2 ^ 21 * hi + lo = 2 ^ 21 * hi ||| lo :=
    Nat.mul_add_lt_is_or (by omega) hi
  have key : (2 ^ 21 * hi + lo) ||| (c <<< 5) = 2 ^ 21 * hi + (2 ^ 5 * c + lo) := by
    rw [h1, h3, h2, h4, Nat.or_assoc, Nat.or_comm lo (2 ^ 5 * c)]
  rw [key]
  unfold movImm16
  rw [Nat.shiftRight_eq_div_pow]
  have : (0xFFFF : Nat) = 2 ^ 16 - 1 := by norm_num
  rw [this, Nat.and_pow_two_sub_one_eq_mod]
  omega

/-- The base opcodes used for the four immediate-bearing words, in the form
required by `movImm16_encode`. -/
theorem arm64_base_opcodes :
    (0xd2800013 : Nat) = 2 ^ 21 * 0x694 + 0x13 ∧
    (0xf2a00013 : Nat) = 2 ^ 21 * 0x795 + 0x13 ∧
    (0xf2c00013 : Nat) = 2 ^ 21 * 0x796 + 0x13 ∧
    (0xf2e00013 : Nat) = 2 ^ 21 * 0x797 + 0x13 := by
  norm_num

/-- Reconstructing the baked address from the emitted `movz`/`movk` words
recovers the full 64-bit value. -/
theorem arm64ExtractAddr_codeWords (a : Nat) (ha : a < 2 ^ 64) :
    arm64ExtractAddr (arm64CodeWords a) = a := by
  obtain ⟨h0, h1, h2, h3⟩ := arm64_base_opcodes
  have e0 : movImm16 (0xd2800013 ||| ((a &&& 0xFFFF) <<< 5)) = a &&& 0xFFFF := by
    rw [h0]; exact movImm16_encode _ _ _ (by norm_num) (by
      have : (0xFFFF : Nat) = 2 ^ 16 - 1 := by norm_num
      rw [this, Nat.and_pow_two_sub_one_eq_mod]; exact Nat.mod_lt _ (by norm_num))
  have e1 : movImm16 (0xf2a00013 ||| (((a >>> 16) &&& 0xFFFF) <<< 5)) =
      (a >>> 16) &&& 0xFFFF := by
    rw [h1]; exact movImm16_encode _ _ _ (by norm_num) (by
      have : (0xFFFF : Nat) = 2 ^ 16 - 1 := by norm_num
      rw [this, Nat.and_pow_two_sub_one_eq_mod]; exact Nat.mod_lt _ (by norm_num))
  have e2 : movImm16 (0xf2c00013 ||| (((a >>> 32) &&& 0xFFFF) <<< 5)) =
      (a >>> 32) &&& 0xFFFF := by
    rw [h2]; exact movImm16_encode _ _ _ (by norm_num) (by
      have : (0xFFFF : Nat) = 2 ^ 16 - 1 := by norm_num
      rw [this, Nat.and_pow_two_sub_one_eq_mod]; exact Nat.mod_lt _ (by norm_num))
  have e3 : movImm16 (0xf2e00013 ||| (((a >>> 48) &&& 0xFFFF) <<< 5)) =
      (a >>> 48) &&& 0xFFFF := by
    rw [h3]; exact movImm16_encode _ _ _ (by norm_num) (by
      have : (0xFFFF : Nat) = 2 ^ 16 - 1 := by norm_num
      rw [this, Nat.and_pow_two_sub_one_eq_mod]; exact Nat.mod_lt _ (by norm_num))
  show movImm16 (0xd2800013 ||| ((a &&& 0xFFFF) <<< 5)) +
      movImm16 (0xf2a00013 ||| (((a >>> 16) &&& 0xFFFF) <<< 5)) * 2 ^ 16 +
      movImm16 (0xf2c00013 ||| (((a >>> 32) &&& 0xFFFF) <<< 5)) * 2 ^ 32 +
      movImm16 (0xf2e00013 ||| (((a >>> 48) &&& 0xFFFF) <<< 5)) * 2 ^ 48 = a
  rw [e0, e1, e2, e3]
  have hm : (0xFFFF : Nat) = 2 ^ 16 - 1 := by norm_num
  rw [hm, Nat.and_pow_two_sub_one_eq_mod, Nat.and_pow_two_sub_one_eq_mod,
    Nat.and_pow_two_sub_one_eq_mod, Nat.and_pow_two_sub_one_eq_mod,
    Nat.shiftRight_eq_div_pow, Nat.shiftRight_eq_div_pow, Nat.shiftRight_eq_div_pow]
  omega

/-- Reading back the 8 patched bytes at offset 7 of the x86_64 buffer
recovers the full 64-bit address. -/
theorem readLE64_x86Patched (a : Nat) (ha : a < 2 ^ 64) :
    readLE64 (x86PatchedCode a) 7 = a := by
  have hb : x86PatchedCode a =
      [0x53, 0x41, 0x54, 0x41, 0x55, 0x49, 0xbc] ++ le64Bytes a ++
        x86_64_jit_template.drop 15 := by
    rfl
  rw [hb]
  show (a &&& 0xFF) + ((a >>> 8) &&& 0xFF) * 2 ^ 8 + ((a >>> 16) &&& 0xFF) * 2 ^ 16 +
      ((a >>> 24) &&& 0xFF) * 2 ^ 24 + ((a >>> 32) &&& 0xFF) * 2 ^ 32 +
      ((a >>> 40) &&& 0xFF) * 2 ^ 40 + ((a >>> 48) &&& 0xFF) * 2 ^ 48 +
      ((a >>> 56) &&& 0xFF) * 2 ^ 56 = a
  have hm : (0xFF : Nat) = 2 ^ 8 - 1 := by norm_num
  simp only [hm, Nat.and_pow_two_sub_one_eq_mod, Nat.shiftRight_eq_div_pow]
  omega

/-! ### Decoded semantics of the generated code

The loop semantics below are obtained by decoding the emitted words per the
ARM Architecture Reference Manual (A64) and the Intel SDM, at
register-transfer level.  Decoded ARM64 disassembly of the loop body
(indices 9..17):

* index 9, `0x53104ec8`: `sf=0, opc=10 (UBFM), immr=16, imms=19, Rn=w22,
  Rd=w8` — a 32-bit `UBFM` with `imms ≥ immr`, i.e.
  `ubfx w8, w22, #16, #4`: `w8 = (w22 >> 16) & (2^(imms-immr+1) - 1)`.
  (The C comment calls this word `lsr w8, w22, #16`, which would need
  `imms = 31`; the emitted word has `imms = 19`.)
* index 10, `0x12001908`: 32-bit `AND` immediate, `N=0, immr=0, imms=6`,
  mask `= 2^(imms+1) - 1 = 127`: `and w8, w8, #127`.
* index 11: `ldrb w9, [x1, x8]`; index 12: `ldrb w9, [x19, x9]`;
  index 13: `strb w9, [x21]`; index 14: `add x21, x21, x20` (x20 = 320);
  index 15: `add w22, w22, w4`; index 16: `subs w3, w3, #1`;
  index 17: `b.ge` back to index 9 (so the body runs `count+1` times for
  `0 ≤ count < 2^31`, the valid signed-count range).

The prologue/epilogue store-pair/load-pair words and the stack are not
modelled: they only save/restore registers and do not touch the drawn
output.  (Decoded, the emitted pair words are `stp x19, x19` /
`stp x21, x21` / `ldp x21, x21` / `ldp x19, x19`, so `x20`/`x22` are in
fact clobbered, but no frozen claim concerns callee-saved registers.) -/

/-- `immr` field (bits 16..21) of an ARM64 bitfield/logical-immediate word. -/
def ubfmImmr (w : Nat) : Nat := (w >>> 16) &&& 63

/-- `imms` field (bits 10..15) of an ARM64 bitfield/logical-immediate word. -/
def ubfmImms (w : Nat) : Nat := (w >>> 10) &&& 63

/-- Result of 32-bit `UBFM` with `imms ≥ immr` (alias `ubfx`): extract
`imms - immr + 1` bits of `rn` starting at bit `immr` (ARM ARM, UBFM). -/
def ubfmExtract (w rn : Nat) : Nat :=
  (rn >>> ubfmImmr w) &&& (2 ^ (ubfmImms w - ubfmImmr w + 1) - 1)

/-- Mask of a 32-bit `AND` immediate with `N=0`, `immr=0`: a run of
`imms + 1` one-bits starting at bit 0 (ARM ARM, DecodeBitMasks). -/
def andImmMask (w : Nat) : Nat := 2 ^ (ubfmImms w + 1) - 1

/-- The texture index the emitted ARM64 loop computes from the current
`w22` (frac) value: the `ubfx` word followed by the `and`-immediate word. -/
def arm64TexIndex (f : Nat) : Nat :=
  ubfmExtract arm64TexWord f &&& andImmMask arm64AndWord

/-- The emitted word `0x53104ec8` extracts 4 bits at bit 16, so the
generated ARM64 code indexes the texture with `(frac >>> 16) &&& 15`. -/
theorem arm64TexIndex_eq (f : Nat) : arm64TexIndex f = (f >>> 16) &&& 15 := by
  show ((f >>> ubfmImmr arm64TexWord) &&&
      (2 ^ (ubfmImms arm64TexWord - ubfmImmr arm64TexWord + 1) - 1)) &&&
      andImmMask arm64AndWord = (f >>> 16) &&& 15
  have h1 : ubfmImmr arm64TexWord = 16 := by decide
  have h2 : ubfmImms arm64TexWord = 19 := by decide
  have h3 : andImmMask arm64AndWord = 127 := by decide
  rw [h1, h2, h3]
  have h4 : (2 ^ (19 - 16 + 1) - 1 : Nat) = 15 := by norm_num
  have h5 : (15 : Nat) &&& 127 = 15 := by decide
  rw [h4, Nat.and_assoc, h5]

/-- Machine state of the generated ARM64 loop: the mutable registers
(`x21` = dest cursor, `w22` = frac accumulator) and byte memory.
`x1` (source), `x19` (baked colormap), `w4` (fracstep) are loop-invariant
and passed as parameters; loads read `mem % 256` (ldrb zero-extends a
byte), addresses wrap at `2^64`, 32-bit adds wrap at `2^32`. -/
structure Arm64State where
  x21 : Nat
  w22 : Nat
  mem : Nat → Nat

/-- One iteration of the generated ARM64 loop body (decoded words at
indices 9..15 of `arm64CodeWords`). -/
def arm64Body (x1 x19 w4 : Nat) (s : Arm64State) : Arm64State :=
  let w8 := arm64TexIndex s.w22
  let w9 := s.mem ((x1 + w8) % 2 ^ 64) % 256
  let w9' := s.mem ((x19 + w9) % 2 ^ 64) % 256
  { x21 := (s.x21 + 320) % 2 ^ 64,
    w22 := (s.w22 + w4) % 2 ^ 32,
    mem := fun a => if a = s.x21 then w9' else s.mem a }

/-- The generated ARM64 loop: `subs w3, w3, #1` / `b.ge` runs the body
`count + 1` times for a nonnegative signed `count`. -/
def arm64Loop (x1 x19 w4 : Nat) : Nat → Arm64State → Arm64State
  | 0, s => arm64Body x1 x19 w4 s
  | c + 1, s => arm64Loop x1 x19 w4 c (arm64Body x1 x19 w4 s)

/-- Execution of an ARM64 buffer whose words were produced by the
generator: the prologue loads `x19` from the `movz`/`movk` immediates of
the buffer (decoded by `arm64ExtractAddr`), `x20 := 320`, `x21 := x0`
(dest), `w22 := w5` (frac); the caller-supplied colormap argument in `x2`
is never read.  Argument order follows the AArch64 calling convention
noted in the source: `x0=dest, x1=source, x2=colormap, w3=count,
w4=fracstep, w5=frac`. -/
def arm64Exec (ws : List Nat) (dest source _colormapArg count fracstep frac : Nat)
    (mem : Nat → Nat) : Arm64State :=
  arm64Loop (source % 2 ^ 64) (arm64ExtractAddr ws) (fracstep % 2 ^ 32) count
    { x21 := dest % 2 ^ 64, w22 := frac % 2 ^ 32, mem := mem }

/-- Machine state of the x86_64 template loop: `rdi` = dest cursor,
`eax` = frac accumulator, and byte memory. -/
structure X86State where
  rdi : Nat
  eax : Nat
  mem : Nat → Nat

/-- One iteration of the x86_64 template loop body (template offsets
24..48: `mov ebx,eax; shr ebx,16; and ebx,127; movzx ebx,[rsi+rbx];
movzx ebx,[r12+rbx]; mov [rdi],bl; add rdi,r13; add eax,r8d`), with
`rsi` = source, `r12` = patched colormap address, `r13` = 320,
`r8d` = fracstep. -/
def x86Body (rsi r12 r8d : Nat) (s : X86State) : X86State :=
  let ebx := (s.eax >>> 16) &&& 127
  let ebx' := s.mem ((rsi + ebx) % 2 ^ 64) % 256
  let ebx'' := s.mem ((r12 + ebx') % 2 ^ 64) % 256
  { rdi := (s.rdi + 320) % 2 ^ 64,
    eax := (s.eax + r8d) % 2 ^ 32,
    mem := fun a => if a = s.rdi then ebx'' else s.mem a }

/-- The x86_64 template loop: `dec ecx` / `jns` runs the body `count + 1`
times for a nonnegative signed `count`. -/
def x86Loop (rsi r12 r8d : Nat) : Nat → X86State → X86State
  | 0, s => x86Body rsi r12 r8d s
  | c + 1, s => x86Loop rsi r12 r8d c (x86Body rsi r12 r8d s)

/-- Execution of an x86_64 buffer produced by the generator: `r12` is
loaded from the 8 bytes patched at offset 7 (`readLE64`), `r13 := 320`,
`eax := r9d` (frac); the caller's colormap argument in `rdx` is never
read.  SysV argument order: `rdi=dest, rsi=source, rdx=colormap,
ecx=count, r8d=fracstep, r9d=frac`. -/
def x86Exec (bs : List Nat) (dest source _colormapArg count fracstep frac : Nat)
    (mem : Nat → Nat) : X86State :=
  x86Loop (source % 2 ^ 64) (readLE64 bs X86_64_COLORMAP_OFFSET)
    (fracstep % 2 ^ 32) count
    { rdi := dest % 2 ^ 64, eax := frac % 2 ^ 32, mem := mem }

/-- Modelled from the spec: the Reference column-drawing loop
(spec §4.2 per-iteration semantics; the Reference `R_DrawColumn`
implementation itself is not under `src/`):
`texIndex = (frac >> 16) & 127; texel = source[texIndex];
pixel = colormap[texel]; *dest = pixel; dest += 320; frac += fracstep;
count -= 1; loop while count >= 0`.  `frac` is a 32-bit accumulator. -/
def refLoop (source colormap fracstep : Nat) :
    Nat → Nat → Nat → (Nat → Nat) → (Nat → Nat)
  | 0, dest, frac, mem =>
    let texIndex := (frac >>> 16) &&& 127
    let texel := mem (source + texIndex) % 256
    let pixel := mem (colormap + texel) % 256
    fun a => if a = dest then pixel else mem a
  | c + 1, dest, frac, mem =>
    let texIndex := (frac >>> 16) &&& 127
    let texel := mem (source + texIndex) % 256
    let pixel := mem (colormap + texel) % 256
    refLoop source colormap fracstep c (dest + 320) ((frac + fracstep) % 2 ^ 32)
      (fun a => if a = dest then pixel else mem a)

/-- Modelled from the spec: Reference path entry point (arguments as in
`jit_draw_column_fn`: dest, source, colormap, count, fracstep, frac). -/
def refDrawColumn (dest source colormap count fracstep frac : Nat)
    (mem : Nat → Nat) : Nat → Nat :=
  refLoop source colormap (fracstep % 2 ^ 32) count dest (frac % 2 ^ 32) mem

/-! ### Claims about the generated code itself -/

/-- Concrete memory for the C1 failing input: a source texture at
`0x1000` with `source[0] = 1`, `source[16] = 2`, and a colormap table at
`0x2000` with `colormap[1] = 0xAA`, `colormap[2] = 0xBB`. -/
def failMem : Nat → Nat := fun a =>
  if a = 0x1010 then 2
  else if a = 0x1000 then 1
  else if a = 0x2001 then 0xAA
  else if a = 0x2002 then 0xBB
  else 0

/-- Claim C1 (settled as a code bug, evaluated at the failing input):
the emitted ARM64 texture-index word has `immr = 16`, `imms = 19`
(`ubfx w8, w22, #16, #4`), whereas `lsr w8, w22, #16` — the documented
instruction, required for the claimed `(frac >> 16) & 127` indexing —
needs `imms = 31`.  Consequently at
`dest = 0, source = 0x1000, colormap = 0x2000 (baked 0x2000), count = 0,
fracstep = 0, frac = 0x100000` the generated ARM64 code writes
`colormap[source[0]] = 0xAA` to `dest[0]`, while the reference loop and
the generated x86_64 code both write `colormap[source[16]] = 0xBB`: the
two backends are not bit-for-bit equal to the reference loop. -/
theorem claim_C1_arm64_texIndex_bug :
    (ubfmImmr arm64TexWord = 16 ∧ ubfmImms arm64TexWord = 19 ∧
      ubfmImms arm64TexWord ≠ 31) ∧
    (arm64Exec (arm64CodeWords 0x2000) 0 0x1000 0x2000 0 0 0x100000 failMem).mem 0
       = 0xAA ∧
    refDrawColumn 0 0x1000 0x2000 0 0 0x100000 failMem 0 = 0xBB ∧
    (x86Exec (x86PatchedCode 0x2000) 0 0x1000 0x2000 0 0 0x100000 failMem).mem 0
       = 0xBB ∧
    (arm64Exec (arm64CodeWords 0x2000) 0 0x1000 0x2000 0 0 0x100000 failMem).mem 0
       ≠ refDrawColumn 0 0x1000 0x2000 0 0 0x100000 failMem 0 := by
  refine ⟨⟨by decide, by decide, by decide⟩, ?_, ?_, ?_, ?_⟩ <;> decide

/-- Claim C5: the immediate embedded by generation reconstructs the full
64-bit colormap address exactly — on ARM64 the four `movz`/`movk` imm16
fields reassemble to `a`, on x86_64 the 8 bytes patched at offset 7 read
back (little-endian) as `a`, for every `a` in the 64-bit address space. -/
theorem claim_C5_immediate_exact (a : Nat) (ha : a < 2 ^ 64) :
    arm64ExtractAddr (arm64CodeWords a) = a ∧
    readLE64 (x86PatchedCode a) X86_64_COLORMAP_OFFSET = a :=
  ⟨arm64ExtractAddr_codeWords a ha, readLE64_x86Patched a ha⟩

theorem claim_C5_immediate_exact_witness :
    (0x123456789abcdef : Nat) < 2 ^ 64 ∧
    (arm64ExtractAddr (arm64CodeWords 0x123456789abcdef) = 0x123456789abcdef ∧
     readLE64 (x86PatchedCode 0x123456789abcdef) X86_64_COLORMAP_OFFSET =
       0x123456789abcdef) :=
  ⟨by decide, claim_C5_immediate_exact 0x123456789abcdef (by decide)⟩

/-- Claim C10: every generation call writes only within the 4096-byte
buffer — the ARM64 backend emits exactly 21 four-byte words (84 bytes)
from the buffer base, and the x86_64 backend writes the 59-byte template
with its 8-byte patch at offset 7 lying inside the template, for every
input address. -/
theorem claim_C10_bounded_writes (a : Nat) :
    (arm64CodeWords a).length = 21 ∧ 21 * 4 = 84 ∧ 84 ≤ 4096 ∧
    (x86PatchedCode a).length = x86_64_jit_template.length ∧
    x86_64_jit_template.length = 59 ∧ 59 ≤ 4096 ∧
    X86_64_COLORMAP_OFFSET + 8 ≤ x86_64_jit_template.length := by
  refine ⟨rfl, rfl, by norm_num, rfl, rfl, by norm_num, by decide⟩

/-! ### Generation state machine

State touched by `R_JIT_GenerateDrawColumn` / `R_JIT_GetDrawColumn`:
the JIT buffer (`jit_code`; `none` models a failed `mmap`, r_jit.c lines
45-59), the pointer value of `jit_current_colormap` (initially `NULL`,
modelled as `0`), and whether `jit_compiled_fn` is non-NULL.  The ARM64
backend's buffer holds 32-bit words, the x86_64 backend's holds bytes;
both are `List Nat`. -/

structure GenState where
  buf : Option (List Nat)
  currentColormap : Nat
  fnSet : Bool
deriving DecidableEq

/-- State right after `R_JIT_Init` (r_jit.c lines 45-66):
`jit_current_colormap = NULL`, `jit_compiled_fn = NULL`; `buf0` is the
mapping result (`none` when `mmap` failed). -/
def initGenState (buf0 : Option (List Nat)) : GenState :=
  { buf := buf0, currentColormap := 0, fnSet := false }

/-- `R_JIT_GenerateDrawColumn`, ARM64 version (r_jit.c lines 279-391):
returns unchanged if the buffer is unavailable; skips when the requested
colormap equals the baked one and a compiled function is resident;
otherwise overwrites the first 21 words with `arm64CodeWords colormap`,
records the colormap and publishes the entry point. -/
def generateDrawColumnARM64 (colormap : Nat) (s : GenState) : GenState :=
  match s.buf with
  | none => s
  | some b =>
    if colormap = s.currentColormap ∧ s.fnSet = true then s
    else
      { buf := some (arm64CodeWords colormap ++ b.drop 21),
        currentColormap := colormap, fnSet := true }

/-- `R_JIT_GenerateDrawColumn`, x86_64 version (r_jit.c lines 453-479):
same guards; overwrites the first 59 bytes with the patched template. -/
def generateDrawColumnX86 (colormap : Nat) (s : GenState) : GenState :=
  match s.buf with
  | none => s
  | some b =>
    if colormap = s.currentColormap ∧ s.fnSet = true then s
    else
      { buf := some (x86PatchedCode colormap ++ b.drop 59),
        currentColormap := colormap, fnSet := true }

/-- `R_JIT_GenerateDrawColumn`, fallback version for unsupported
architectures (r_jit.c lines 484-488): sets `jit_compiled_fn = NULL`. -/
def generateDrawColumnFallback (_colormap : Nat) (s : GenState) : GenState :=
  { s with fnSet := false }

/-- `R_JIT_GetDrawColumn` (r_jit.c lines 492-495) returns
`jit_compiled_fn`; we model whether the returned pointer is non-NULL. -/
def R_JIT_GetDrawColumn (s : GenState) : Bool := s.fnSet

inductive DrawPath where
  | compiled
  | reference
deriving DecidableEq

/-- Modelled from the spec: the renderer's per-call dispatch point (it
lives in `r_draw.c`, which is not under `src/`); per spec §4.3, dispatch
goes to Compiled only when JIT mode is on and `R_JIT_GetDrawColumn`
returns a non-NULL entry point, silently falling back to Reference
otherwise. -/
def dispatch (modeOn : Bool) (s : GenState) : DrawPath :=
  if modeOn ∧ R_JIT_GetDrawColumn s = true then DrawPath.compiled
  else DrawPath.reference

/-! ### Event order of a rewriting generation call -/

inductive JitEvent where
  | setWritable
  | writeCode
  | setExecutable
  | icacheInvalidate
  | publishEntry
deriving DecidableEq

/-- Event trace of a buffer-rewriting ARM64 `R_JIT_GenerateDrawColumn`
call (r_jit.c lines 290-382): `pthread_jit_write_protect_np(0)`, the
code-word writes, then `pthread_jit_write_protect_np(1)` and
`sys_icache_invalidate` — the latter three compiled only under
`__APPLE__` — and finally the assignment to `jit_compiled_fn`
(publication of the entry point). -/
def arm64GenTrace (apple : Bool) : List JitEvent :=
  (if apple then [JitEvent.setWritable] else []) ++ [JitEvent.writeCode] ++
    (if apple then [JitEvent.setExecutable, JitEvent.icacheInvalidate] else []) ++
    [JitEvent.publishEntry]

/-- Event trace of a buffer-rewriting x86_64 call (r_jit.c lines
453-470): the template `memcpy`, the address-patch `memcpy`, then the
assignment to `jit_compiled_fn`; no protection toggle and no cache
invalidation are performed. -/
def x86GenTrace : List JitEvent :=
  [JitEvent.writeCode, JitEvent.writeCode, JitEvent.publishEntry]

/-- Every occurrence of `e` in `tr` lies strictly before every
occurrence of `f`. -/
def allBefore (tr : List JitEvent) (e f : JitEvent) : Prop :=
  ∀ i : Fin tr.length, ∀ j : Fin tr.length,
    tr.get i = e → tr.get j = f → (i : Nat) < (j : Nat)

instance (tr : List JitEvent) (e f : JitEvent) : Decidable (allBefore tr e f) := by
  unfold allBefore
  infer_instance

/-- Claim C2 counterexample: the claim asserts that in every rewriting
call the instruction cache lines covering the written bytes are
invalidated strictly before the entry point is published; in the x86_64
backend's rewriting call no cache-invalidation action occurs at all. -/
theorem claim_C2_counterexample : JitEvent.icacheInvalidate ∉ x86GenTrace := by
  decide

/-- Claim C2 as amended: in every buffer-rewriting generation call, all
instruction-byte writes happen strictly before the entry point is
published, and publication is the final action; on the Apple ARM64 build
the region is additionally made writable before the writes, and returned
to the executable state and instruction-cache-invalidated after the
writes and strictly before publication; the x86_64 and non-Apple ARM64
builds perform no protection toggle and no cache invalidation. -/
theorem claim_C2_amended :
    (∀ apple, allBefore (arm64GenTrace apple) JitEvent.writeCode
        JitEvent.publishEntry) ∧
    allBefore x86GenTrace JitEvent.writeCode JitEvent.publishEntry ∧
    (∀ apple, (arm64GenTrace apple).getLast? = some JitEvent.publishEntry) ∧
    x86GenTrace.getLast? = some JitEvent.publishEntry ∧
    (JitEvent.setWritable ∈ arm64GenTrace true ∧
      allBefore (arm64GenTrace true) JitEvent.setWritable JitEvent.writeCode) ∧
    (JitEvent.setExecutable ∈ arm64GenTrace true ∧
      allBefore (arm64GenTrace true) JitEvent.writeCode JitEvent.setExecutable ∧
      allBefore (arm64GenTrace true) JitEvent.setExecutable JitEvent.publishEntry) ∧
    (JitEvent.icacheInvalidate ∈ arm64GenTrace true ∧
      allBefore (arm64GenTrace true) JitEvent.writeCode JitEvent.icacheInvalidate ∧
      allBefore (arm64GenTrace true) JitEvent.icacheInvalidate
        JitEvent.publishEntry) ∧
    (JitEvent.setExecutable ∉ arm64GenTrace false ∧
      JitEvent.icacheInvalidate ∉ arm64GenTrace false ∧
      JitEvent.setWritable ∉ x86GenTrace ∧
      JitEvent.setExecutable ∉ x86GenTrace ∧
      JitEvent.icacheInvalidate ∉ x86GenTrace) := by
  refine ⟨?_, ?_, ?_, ?_, ?_, ?_, ?_, ?_⟩
  · intro apple; cases apple <;> decide
  · decide
  · intro apple; cases apple <;> decide
  all_goals decide

/-- Claim C3: once a variant baked with `addr` is resident, generating
again with the same `addr` is a no-op — the second call returns the state
of the first call unchanged (buffer bytes, baked colormap and entry point
all identical), on both backends, from any starting state. -/
theorem claim_C3_generate_idempotent (addr : Nat) (s : GenState) :
    generateDrawColumnARM64 addr (generateDrawColumnARM64 addr s) =
      generateDrawColumnARM64 addr s ∧
    generateDrawColumnX86 addr (generateDrawColumnX86 addr s) =
      generateDrawColumnX86 addr s := by
  constructor
  · cases hb : s.buf with
    | none => simp [generateDrawColumnARM64, hb]
    | some b =>
      by_cases hc : addr = s.currentColormap ∧ s.fnSet = true
      · simp [generateDrawColumnARM64, hb, hc]
      · simp [generateDrawColumnARM64, hb, hc]
  · cases hb : s.buf with
    | none => simp [generateDrawColumnX86, hb]
    | some b =>
      by_cases hc : addr = s.currentColormap ∧ s.fnSet = true
      · simp [generateDrawColumnX86, hb, hc]
      · simp [generateDrawColumnX86, hb, hc]

/-- Claim C9: if buffer allocation failed at initialization, every
subsequent generation call (either backend) is a no-op that leaves the
state untouched and no entry point set, so `R_JIT_GetDrawColumn` returns
NULL forever; on an unsupported architecture the fallback generator
likewise never leaves an entry point set regardless of the initial
mapping; in both situations the (spec-modelled) dispatch point routes
every draw call to the Reference path, whatever mode is requested. -/
theorem claim_C9_degraded_no_entry (addrs : List Nat) (b0 : Option (List Nat))
    (m : Bool) :
    addrs.foldl (fun s a => generateDrawColumnARM64 a s) (initGenState none) =
      initGenState none ∧
    addrs.foldl (fun s a => generateDrawColumnX86 a s) (initGenState none) =
      initGenState none ∧
    R_JIT_GetDrawColumn
      (addrs.foldl (fun s a => generateDrawColumnARM64 a s)
        (initGenState none)) = false ∧
    R_JIT_GetDrawColumn
      (addrs.foldl (fun s a => generateDrawColumnX86 a s)
        (initGenState none)) = false ∧
    R_JIT_GetDrawColumn
      (addrs.foldl (fun s a => generateDrawColumnFallback a s)
        (initGenState b0)) = false ∧
    dispatch m
      (addrs.foldl (fun s a => generateDrawColumnARM64 a s)
        (initGenState none)) = DrawPath.reference ∧
    dispatch m
      (addrs.foldl (fun s a => generateDrawColumnFallback a s)
        (initGenState b0)) = DrawPath.reference := by
  have harm : ∀ l : List Nat,
      l.foldl (fun s a => generateDrawColumnARM64 a s) (initGenState none) =
        initGenState none := by
    intro l
    induction l with
    | nil => rfl
    | cons x xs ih => simpa [generateDrawColumnARM64, initGenState] using ih
  have hx86 : ∀ l : List Nat,
      l.foldl (fun s a => generateDrawColumnX86 a s) (initGenState none) =
        initGenState none := by
    intro l
    induction l with
    | nil => rfl
    | cons x xs ih => simpa [generateDrawColumnX86, initGenState] using ih
  have hfb : ∀ (l : List Nat) (s : GenState), s.fnSet = false →
      (l.foldl (fun s a => generateDrawColumnFallback a s) s).fnSet = false := by
    intro l
    induction l with
    | nil => intro s hs; simpa using hs
    | cons x xs ih =>
      intro s _
      exact ih _ rfl
  have hfb0 : R_JIT_GetDrawColumn
      (addrs.foldl (fun s a => generateDrawColumnFallback a s)
        (initGenState b0)) = false := hfb addrs (initGenState b0) rfl
  refine ⟨harm addrs, hx86 addrs, ?_, ?_, hfb0, ?_, ?_⟩
  · rw [harm addrs]; rfl
  · rw [hx86 addrs]; rfl
  · rw [harm addrs]
    simp [dispatch, R_JIT_GetDrawColumn, initGenState]
  · unfold dispatch
    rw [hfb0]
    simp

/-- Decoding the embedded address only looks at words 2..5, so trailing
buffer content does not affect it. -/
theorem arm64ExtractAddr_append (c : Nat) (rest : List Nat) :
    arm64ExtractAddr (arm64CodeWords c ++ rest) =
      arm64ExtractAddr (arm64CodeWords c) := by
  unfold arm64ExtractAddr
  rw [List.getD_append _ _ _ _ (by simp [arm64CodeWords]),
    List.getD_append _ _ _ _ (by simp [arm64CodeWords]),
    List.getD_append _ _ _ _ (by simp [arm64CodeWords]),
    List.getD_append _ _ _ _ (by simp [arm64CodeWords])]

/-- The patched x86_64 buffer is as long as the template: 59 bytes. -/
theorem x86PatchedCode_length (c : Nat) : (x86PatchedCode c).length = 59 := rfl

/-- Reading the patched 8 bytes only looks at offsets 7..14, so trailing
buffer content does not affect it. -/
theorem readLE64_append (c : Nat) (rest : List Nat) :
    readLE64 (x86PatchedCode c ++ rest) X86_64_COLORMAP_OFFSET =
      readLE64 (x86PatchedCode c) X86_64_COLORMAP_OFFSET := by
  unfold readLE64 X86_64_COLORMAP_OFFSET
  rw [List.getD_append _ _ _ _ (by simp [x86PatchedCode_length]),
    List.getD_append _ _ _ _ (by simp [x86PatchedCode_length]),
    List.getD_append _ _ _ _ (by simp [x86PatchedCode_length]),
    List.getD_append _ _ _ _ (by simp [x86PatchedCode_length]),
    List.getD_append _ _ _ _ (by simp [x86PatchedCode_length]),
    List.getD_append _ _ _ _ (by simp [x86PatchedCode_length]),
    List.getD_append _ _ _ _ (by simp [x86PatchedCode_length]),
    List.getD_append _ _ _ _ (by simp [x86PatchedCode_length])]

/-- One full iteration of the generated ARM64 code (`count = 0`): the
byte written at `dest` is the baked colormap table entry selected by the
source byte at the (4-bit-masked) texture index. -/
theorem arm64Exec_single (ws : List Nat) (dest source cmArg fracstep frac : Nat)
    (mem : Nat → Nat) (hd : dest < 2 ^ 64) (hs : source + 127 < 2 ^ 64)
    (hc : arm64ExtractAddr ws + 255 < 2 ^ 64) :
    (arm64Exec ws dest source cmArg 0 fracstep frac mem).mem dest =
      mem (arm64ExtractAddr ws +
        mem (source + arm64TexIndex (frac % 2 ^ 32)) % 256) % 256 := by
  have hd' : dest % 2 ^ 64 = dest := Nat.mod_eq_of_lt hd
  have hs' : source % 2 ^ 64 = source := Nat.mod_eq_of_lt (by omega)
  have htex : arm64TexIndex (frac % 2 ^ 32) ≤ 15 := by
    rw [arm64TexIndex_eq]; exact Nat.and_le_right
  have h3 : (source + arm64TexIndex (frac % 2 ^ 32)) % 2 ^ 64 =
      source + arm64TexIndex (frac % 2 ^ 32) := Nat.mod_eq_of_lt (by omega)
  have hw9 : mem (source + arm64TexIndex (frac % 2 ^ 32)) % 256 < 256 :=
    Nat.mod_lt _ (by norm_num)
  have h4 : (arm64ExtractAddr ws +
      mem (source + arm64TexIndex (frac % 2 ^ 32)) % 256) % 2 ^ 64 =
      arm64ExtractAddr ws + mem (source + arm64TexIndex (frac % 2 ^ 32)) % 256 :=
    Nat.mod_eq_of_lt (by omega)
  show (arm64Body (source % 2 ^ 64) (arm64ExtractAddr ws) (fracstep % 2 ^ 32)
      { x21 := dest % 2 ^ 64, w22 := frac % 2 ^ 32, mem := mem }).mem dest =
    mem (arm64ExtractAddr ws +
      mem (source + arm64TexIndex (frac % 2 ^ 32)) % 256) % 256
  simp only [arm64Body, hs', hd', h3, h4]
  simp

/-- One full iteration of the generated x86_64 code (`count = 0`): the
byte written at `dest` is the patched colormap table entry selected by
the source byte at the 7-bit-masked texture index. -/
theorem x86Exec_single (bs : List Nat) (dest source cmArg fracstep frac : Nat)
    (mem : Nat → Nat) (hd : dest < 2 ^ 64) (hs : source + 127 < 2 ^ 64)
    (hc : readLE64 bs X86_64_COLORMAP_OFFSET + 255 < 2 ^ 64) :
    (x86Exec bs dest source cmArg 0 fracstep frac mem).mem dest =
      mem (readLE64 bs X86_64_COLORMAP_OFFSET +
        mem (source + (((frac % 2 ^ 32) >>> 16) &&& 127)) % 256) % 256 := by
  have hd' : dest % 2 ^ 64 = dest := Nat.mod_eq_of_lt hd
  have hs' : source % 2 ^ 64 = source := Nat.mod_eq_of_lt (by omega)
  have htex : ((frac % 2 ^ 32) >>> 16) &&& 127 ≤ 127 := Nat.and_le_right
  have h3 : (source + (((frac % 2 ^ 32) >>> 16) &&& 127)) % 2 ^ 64 =
      source + (((frac % 2 ^ 32) >>> 16) &&& 127) := Nat.mod_eq_of_lt (by omega)
  have hw9 : mem (source + (((frac % 2 ^ 32) >>> 16) &&& 127)) % 256 < 256 :=
    Nat.mod_lt _ (by norm_num)
  have h4 : (readLE64 bs X86_64_COLORMAP_OFFSET +
      mem (source + (((frac % 2 ^ 32) >>> 16) &&& 127)) % 256) % 2 ^ 64 =
      readLE64 bs X86_64_COLORMAP_OFFSET +
        mem (source + (((frac % 2 ^ 32) >>> 16) &&& 127)) % 256 :=
    Nat.mod_eq_of_lt (by omega)
  show (x86Body (source % 2 ^ 64) (readLE64 bs X86_64_COLORMAP_OFFSET)
      (fracstep % 2 ^ 32)
      { rdi := dest % 2 ^ 64, eax := frac % 2 ^ 32, mem := mem }).mem dest =
    mem (readLE64 bs X86_64_COLORMAP_OFFSET +
      mem (source + (((frac % 2 ^ 32) >>> 16) &&& 127)) % 256) % 256
  simp only [x86Body, hs', hd', h3, h4]
  simp

/-- Claim C4: after `generate(addrA)` followed by `generate(addrB)` with
`addrA ≠ addrB` (buffer available), the buffer holds the code for
`addrB`; the immediate embedded in the resident code decodes to `addrB`
and not to `addrA`; and executing the resident code reads its pixels
through `addrB`'s table — so whenever the two tables are distinguishable
at the looked-up entry, the compiled output follows `addrB`, not
`addrA`.  Both backends. -/
theorem claim_C4_rebake (A B : Nat) (hAB : A ≠ B) (hB : B < 2 ^ 64)
    (s : GenState) (b : List Nat) (hbuf : s.buf = some b) :
    (generateDrawColumnARM64 B (generateDrawColumnARM64 A s)).buf =
      some (arm64CodeWords B ++ b.drop 21) ∧
    (generateDrawColumnARM64 B (generateDrawColumnARM64 A s)).currentColormap
      = B ∧
    arm64ExtractAddr (arm64CodeWords B ++ b.drop 21) = B ∧
    arm64ExtractAddr (arm64CodeWords B ++ b.drop 21) ≠ A ∧
    (∀ (mem : Nat → Nat) (dest source cmArg fracstep frac : Nat),
      dest < 2 ^ 64 → source + 127 < 2 ^ 64 → B + 255 < 2 ^ 64 →
      (arm64Exec (arm64CodeWords B ++ b.drop 21) dest source cmArg 0 fracstep
          frac mem).mem dest =
        mem (B + mem (source + arm64TexIndex (frac % 2 ^ 32)) % 256) % 256 ∧
      (mem (B + mem (source + arm64TexIndex (frac % 2 ^ 32)) % 256) % 256 ≠
          mem (A + mem (source + arm64TexIndex (frac % 2 ^ 32)) % 256) % 256 →
        (arm64Exec (arm64CodeWords B ++ b.drop 21) dest source cmArg 0 fracstep
            frac mem).mem dest ≠
          mem (A + mem (source + arm64TexIndex (frac % 2 ^ 32)) % 256) % 256)) ∧
    (generateDrawColumnX86 B (generateDrawColumnX86 A s)).buf =
      some (x86PatchedCode B ++ b.drop 59) ∧
    (generateDrawColumnX86 B (generateDrawColumnX86 A s)).currentColormap = B ∧
    readLE64 (x86PatchedCode B ++ b.drop 59) X86_64_COLORMAP_OFFSET = B ∧
    readLE64 (x86PatchedCode B ++ b.drop 59) X86_64_COLORMAP_OFFSET ≠ A ∧
    (∀ (mem : Nat → Nat) (dest source cmArg fracstep frac : Nat),
      dest < 2 ^ 64 → source + 127 < 2 ^ 64 → B + 255 < 2 ^ 64 →
      (x86Exec (x86PatchedCode B ++ b.drop 59) dest source cmArg 0 fracstep
          frac mem).mem dest =
        mem (B + mem (source + (((frac % 2 ^ 32) >>> 16) &&& 127)) % 256) % 256 ∧
      (mem (B + mem (source + (((frac % 2 ^ 32) >>> 16) &&& 127)) % 256) % 256 ≠
          mem (A + mem (source + (((frac % 2 ^ 32) >>> 16) &&& 127)) % 256) % 256 →
        (x86Exec (x86PatchedCode B ++ b.drop 59) dest source cmArg 0 fracstep
            frac mem).mem dest ≠
          mem (A + mem (source + (((frac % 2 ^ 32) >>> 16) &&& 127)) % 256)
            % 256)) := by
  have hextA : arm64ExtractAddr (arm64CodeWords B ++ b.drop 21) = B := by
    rw [arm64ExtractAddr_append]; exact arm64ExtractAddr_codeWords B hB
  have hextX : readLE64 (x86PatchedCode B ++ b.drop 59) X86_64_COLORMAP_OFFSET
      = B := by
    rw [readLE64_append]; exact readLE64_x86Patched B hB
  have hbufA : (generateDrawColumnARM64 B (generateDrawColumnARM64 A s)).buf =
      some (arm64CodeWords B ++ b.drop 21) ∧
      (generateDrawColumnARM64 B
        (generateDrawColumnARM64 A s)).currentColormap = B := by
    by_cases hc : A = s.currentColormap ∧ s.fnSet = true
    · have h1 : generateDrawColumnARM64 A s = s := by
        simp [generateDrawColumnARM64, hbuf, hc]
      rw [h1]
      have hc2 : ¬ (B = s.currentColormap ∧ s.fnSet = true) := by
        intro h; exact hAB (hc.1.trans h.1.symm)
      simp [generateDrawColumnARM64, hbuf, hc2]
    · have h1 : generateDrawColumnARM64 A s =
          { buf := some (arm64CodeWords A ++ b.drop 21),
            currentColormap := A, fnSet := true } := by
        simp [generateDrawColumnARM64, hbuf, hc]
      rw [h1]
      have hdrop : (arm64CodeWords A ++ b.drop 21).drop 21 = b.drop 21 :=
        List.drop_left' rfl
      simp only [generateDrawColumnARM64, hdrop]
      rw [if_neg (show ¬ (B = A ∧ True) from fun h => hAB h.1.symm)]
      exact ⟨rfl, rfl⟩
  have hbufX : (generateDrawColumnX86 B (generateDrawColumnX86 A s)).buf =
      some (x86PatchedCode B ++ b.drop 59) ∧
      (generateDrawColumnX86 B (generateDrawColumnX86 A s)).currentColormap
        = B := by
    by_cases hc : A = s.currentColormap ∧ s.fnSet = true
    · have h1 : generateDrawColumnX86 A s = s := by
        simp [generateDrawColumnX86, hbuf, hc]
      rw [h1]
      have hc2 : ¬ (B = s.currentColormap ∧ s.fnSet = true) := by
        intro h; exact hAB (hc.1.trans h.1.symm)
      simp [generateDrawColumnX86, hbuf, hc2]
    · have h1 : generateDrawColumnX86 A s =
          { buf := some (x86PatchedCode A ++ b.drop 59),
            currentColormap := A, fnSet := true } := by
        simp [generateDrawColumnX86, hbuf, hc]
      rw [h1]
      have hdrop : (x86PatchedCode A ++ b.drop 59).drop 59 = b.drop 59 :=
        List.drop_left' (x86PatchedCode_length A)
      simp only [generateDrawColumnX86, hdrop]
      rw [if_neg (show ¬ (B = A ∧ True) from fun h => hAB h.1.symm)]
      exact ⟨rfl, rfl⟩
  refine ⟨hbufA.1, hbufA.2, hextA, by rw [hextA]; exact fun h => hAB h.symm,
    ?_, hbufX.1, hbufX.2, hextX, by rw [hextX]; exact fun h => hAB h.symm,
    ?_⟩
  · intro mem dest source cmArg fracstep frac hd hs hB255
    have hrun := arm64Exec_single (arm64CodeWords B ++ b.drop 21) dest source
      cmArg fracstep frac mem hd hs (by rw [hextA]; omega)
    rw [hextA] at hrun
    exact ⟨hrun, fun hne => by rw [hrun]; exact hne⟩
  · intro mem dest source cmArg fracstep frac hd hs hB255
    have hrun := x86Exec_single (x86PatchedCode B ++ b.drop 59) dest source
      cmArg fracstep frac mem hd hs (by rw [hextX]; omega)
    rw [hextX] at hrun
    exact ⟨hrun, fun hne => by rw [hrun]; exact hne⟩

theorem claim_C4_rebake_witness :
    ((0x2000 : Nat) ≠ 0x3000 ∧ (0x3000 : Nat) < 2 ^ 64 ∧
      (initGenState (some (List.replicate 1024 0))).buf =
        some (List.replicate 1024 0)) ∧
    (generateDrawColumnARM64 0x3000 (generateDrawColumnARM64 0x2000
        (initGenState (some (List.replicate 1024 0))))).currentColormap =
      0x3000 ∧
    arm64ExtractAddr
        (arm64CodeWords 0x3000 ++ (List.replicate 1024 (0 : Nat)).drop 21) =
      0x3000 :=
  ⟨⟨by decide, by decide, rfl⟩,
    (claim_C4_rebake 0x2000 0x3000 (by decide) (by decide)
      (initGenState (some (List.replicate 1024 0))) (List.replicate 1024 0)
      rfl).2.1,
    (claim_C4_rebake 0x2000 0x3000 (by decide) (by decide)
      (initGenState (some (List.replicate 1024 0))) (List.replicate 1024 0)
      rfl).2.2.1⟩

/-! ### Mode controller, statistics and logging

Wall-clock instants are modelled as `Nat` nanoseconds of the monotonic
clock (the C code reads integer-nanosecond `timespec` values and converts
them to `double` seconds / milliseconds; over the nanosecond-exact values
the claims exercise, the two are interchangeable, and `CLOCK_MONOTONIC`
never decreases).  `R_JIT_FrameStart` reads the clock twice in the source
(once for `frame_start_time`, once for the auto-switch check); both
readings of the same call are modelled as the single instant `now`.  The
per-mode cumulative frame time (`jit_time_ms` / `branch_time_ms` in the
source) is likewise accumulated in nanoseconds. -/

structure JitStats where
  jit_calls : Nat
  branch_calls : Nat
  jit_frames : Nat
  branch_frames : Nat
  jit_time_ns : Nat
  branch_time_ns : Nat
deriving DecidableEq

structure HarnessState where
  stats : JitStats
  jit_mode_enabled : Bool
  frame_start_time : Nat
  jit_frame_calls : Nat
  last_switch_time : Nat
  auto_switch_enabled : Bool
  switch_interval_ns : Nat
  log_open : Bool
  log_lines : List String
  flush_counter : Nat
  flush_count : Nat
  program_start : Option Nat
deriving DecidableEq

/-- CSV header row written by `R_JIT_Init` (r_jit.c line 79). -/
def csvHeader : String := "timestamp_ms,mode,frame_time_ms,draw_calls"

/-- Harness state after `R_JIT_Init` at instant `now` with the log file
successfully opened (r_jit.c lines 45-87): statistics zeroed, mode =
branching, auto-switch enabled with a 1-second interval
(`switch_interval_sec = 1.0`, line 31), last-switch timer reset to now,
header row written. -/
def R_JIT_Init_state (now : Nat) : HarnessState :=
  { stats := ⟨0, 0, 0, 0, 0, 0⟩, jit_mode_enabled := false,
    frame_start_time := 0, jit_frame_calls := 0,
    last_switch_time := now, auto_switch_enabled := true,
    switch_interval_ns := 1000000000, log_open := true,
    log_lines := [csvHeader],
    flush_counter := 0, flush_count := 0, program_start := none }

/-- `R_JIT_Toggle` (r_jit.c lines 105-110). -/
def R_JIT_Toggle (s : HarnessState) : HarnessState :=
  { s with jit_mode_enabled := !s.jit_mode_enabled }

/-- `R_JIT_ToggleAutoSwitch` (r_jit.c lines 112-122): flips the flag and,
when enabling, resets the last-switch reference point to now. -/
def R_JIT_ToggleAutoSwitch (now : Nat) (s : HarnessState) : HarnessState :=
  let s' := { s with auto_switch_enabled := !s.auto_switch_enabled }
  if s'.auto_switch_enabled then { s' with last_switch_time := now } else s'

/-- `R_JIT_FrameStart` (r_jit.c lines 166-212): records the frame start
time, resets the per-frame draw-call counter, and — when auto-switch is
enabled — flips the mode and resets the reference point if the elapsed
time since the last switch has reached the interval. -/
def R_JIT_FrameStart (now : Nat) (s : HarnessState) : HarnessState :=
  let s1 := { s with frame_start_time := now, jit_frame_calls := 0 }
  if s1.auto_switch_enabled then
    let elapsed := now - s1.last_switch_time
    if elapsed ≥ s1.switch_interval_ns then
      { s1 with
        jit_mode_enabled := !s1.jit_mode_enabled
        last_switch_time := now }
    else s1
  else s1

/-- Modelled from the spec: one column-draw call increments the per-frame
draw-call counter exactly once (the increment lives in `r_draw.c`, which
is not under `src/`; `r_jit.h` line 24 documents the contract), and does
not touch the mode. -/
def drawColumnCall (s : HarnessState) : HarnessState :=
  { s with jit_frame_calls := s.jit_frame_calls + 1 }

/-- Decimal digit character. -/
def digitChar (n : Nat) : Char := Char.ofNat (48 + n % 10)

/-- The `d` fractional digit characters of `n < 10^d` (most significant
first). -/
def fracDigitChars (d n : Nat) : List Char :=
  (List.range d).map (fun i => digitChar (n / 10 ^ (d - 1 - i) % 10))

/-- Model of `printf`'s `%.2f` / `%.4f` applied to a duration of `ns`
nanoseconds printed in milliseconds: the integer part followed by `.`
and exactly `d` fractional digits of `ns / 10^6` (truncated; coincides
with `printf` whenever `ns * 10^d` is a multiple of `10^6`, which holds
in every scenario the claims exercise). -/
def fmtMs (d ns : Nat) : String :=
  let n := ns * 10 ^ d / 1000000
  Nat.repr (n / 10 ^ d) ++ "." ++ String.mk (fracDigitChars d (n % 10 ^ d))

/-- One CSV data row, from `fprintf(log_file, "%.2f,%s,%.4f,%llu\n", ...)`
(r_jit.c lines 251-253): timestamp to two decimal places, `JIT`/`BRANCH`
label, frame time to four decimal places, draw-call count. -/
def formatRow (timestamp_ns : Nat) (mode : Bool) (frame_time_ns : Nat)
    (calls : Nat) : String :=
  fmtMs 2 timestamp_ns ++ "," ++ (if mode then "JIT" else "BRANCH") ++
    "," ++ fmtMs 4 frame_time_ns ++ "," ++ Nat.repr calls

/-- `R_JIT_FrameEnd` (r_jit.c lines 215-263): computes the frame's
elapsed time, latches the program-start reference on the first call,
attributes the frame and its draw calls to the active mode's aggregates,
and — when the log is open — appends one CSV row and flushes once every
100 logged frames. -/
def R_JIT_FrameEnd (now : Nat) (s : HarnessState) : HarnessState :=
  let elapsed_ns := now - s.frame_start_time
  let ps := s.program_start.getD now
  let timestamp_ns := now - ps
  let stats' :=
    if s.jit_mode_enabled then
      { s.stats with
        jit_frames := s.stats.jit_frames + 1
        jit_calls := s.stats.jit_calls + s.jit_frame_calls
        jit_time_ns := s.stats.jit_time_ns + elapsed_ns }
    else
      { s.stats with
        branch_frames := s.stats.branch_frames + 1
        branch_calls := s.stats.branch_calls + s.jit_frame_calls
        branch_time_ns := s.stats.branch_time_ns + elapsed_ns }
  let s' := { s with stats := stats', program_start := some ps }
  if s'.log_open then
    let s'' := { s' with log_lines := s'.log_lines ++
      [formatRow timestamp_ns s.jit_mode_enabled elapsed_ns
        s.jit_frame_calls] }
    if s''.flush_counter + 1 ≥ 100 then
      { s'' with
        flush_counter := 0
        flush_count := s''.flush_count + 1 }
    else
      { s'' with flush_counter := s''.flush_counter + 1 }
  else s'

/-- One whole frame: start hook at `t0`, `calls` column-draw calls, end
hook at `t1`. -/
def runFrame (t0 t1 : Nat) (calls : Nat) (s : HarnessState) : HarnessState :=
  R_JIT_FrameEnd t1 (drawColumnCall^[calls] (R_JIT_FrameStart t0 s))

/-- Claim C6: with auto-switch enabled, the check in `R_JIT_FrameStart`
flips the mode and resets the reference point exactly when the elapsed
time since the last switch has reached the interval, and leaves both
untouched otherwise; draw calls never change the mode; and with the
default 1-second interval, a frame starting 0.99 s after the last switch
does not switch while the next frame starting 1.01 s after it does. -/
theorem claim_C6_autoswitch_boundary (now : Nat) (s t : HarnessState) :
    (R_JIT_FrameStart now s).jit_frame_calls = 0 ∧
    (R_JIT_FrameStart now s).jit_mode_enabled =
      (if s.auto_switch_enabled = true ∧
          s.switch_interval_ns ≤ now - s.last_switch_time
        then !s.jit_mode_enabled else s.jit_mode_enabled) ∧
    (R_JIT_FrameStart now s).last_switch_time =
      (if s.auto_switch_enabled = true ∧
          s.switch_interval_ns ≤ now - s.last_switch_time
        then now else s.last_switch_time) ∧
    (drawColumnCall t).jit_mode_enabled = t.jit_mode_enabled ∧
    (R_JIT_FrameStart 990000000 (R_JIT_Init_state 0)).jit_mode_enabled
      = false ∧
    (R_JIT_FrameStart 990000000 (R_JIT_Init_state 0)).last_switch_time = 0 ∧
    (R_JIT_FrameStart 1010000000
        (R_JIT_FrameStart 990000000 (R_JIT_Init_state 0))).jit_mode_enabled
      = true ∧
    (R_JIT_FrameStart 1010000000
        (R_JIT_FrameStart 990000000 (R_JIT_Init_state 0))).last_switch_time
      = 1010000000 := by
  refine ⟨?_, ?_, ?_, rfl, by decide, by decide, by decide, by decide⟩
  · simp only [R_JIT_FrameStart]
    split_ifs <;> rfl
  · simp only [R_JIT_FrameStart]
    by_cases ha : s.auto_switch_enabled <;>
      by_cases hc : s.switch_interval_ns ≤ now - s.last_switch_time <;>
      simp [ha, hc, ge_iff_le]
  · simp only [R_JIT_FrameStart]
    by_cases ha : s.auto_switch_enabled <;>
      by_cases hc : s.switch_interval_ns ≤ now - s.last_switch_time <;>
      simp [ha, hc, ge_iff_le]

/-- Auto-switch disabled via the console toggle, then 5 frames in JIT
mode with 3 draw calls each, a manual toggle, and 5 frames in branching
mode with 4 draw calls each (frame `i` runs from second `i` to
`i + 1/2`). -/
def scenarioC7 : HarnessState :=
  let s0 := R_JIT_ToggleAutoSwitch 0 (R_JIT_Init_state 0)
  let s1 := R_JIT_Toggle s0
  let s2 := (List.range 5).foldl
    (fun s i => runFrame (i * 1000000000) (i * 1000000000 + 500000000) 3 s) s1
  let s3 := R_JIT_Toggle s2
  (List.range 5).foldl
    (fun s i => runFrame ((5 + i) * 1000000000)
      ((5 + i) * 1000000000 + 500000000) 4 s) s3

/-- Claim C7: `R_JIT_FrameStart` resets the per-frame draw-call counter;
each draw call increments it by one; `R_JIT_FrameEnd` adds the frame and
its draw calls and elapsed time to exactly the active mode's aggregates,
leaving the other mode's aggregates unchanged; and in the 5-JIT-frames /
5-branch-frames scenario (auto-switch disabled, manual toggles between
frames) the aggregates read 5 frames and 15 calls for JIT, 5 frames and
20 calls for branching. -/
theorem claim_C7_frame_attribution (now : Nat) (s : HarnessState) :
    (R_JIT_FrameStart now s).jit_frame_calls = 0 ∧
    (drawColumnCall s).jit_frame_calls = s.jit_frame_calls + 1 ∧
    (R_JIT_FrameEnd now s).stats.jit_frames =
      s.stats.jit_frames + (if s.jit_mode_enabled = true then 1 else 0) ∧
    (R_JIT_FrameEnd now s).stats.jit_calls =
      s.stats.jit_calls +
        (if s.jit_mode_enabled = true then s.jit_frame_calls else 0) ∧
    (R_JIT_FrameEnd now s).stats.jit_time_ns =
      s.stats.jit_time_ns +
        (if s.jit_mode_enabled = true
          then now - s.frame_start_time else 0) ∧
    (R_JIT_FrameEnd now s).stats.branch_frames =
      s.stats.branch_frames + (if s.jit_mode_enabled = true then 0 else 1) ∧
    (R_JIT_FrameEnd now s).stats.branch_calls =
      s.stats.branch_calls +
        (if s.jit_mode_enabled = true then 0 else s.jit_frame_calls) ∧
    (R_JIT_FrameEnd now s).stats.branch_time_ns =
      s.stats.branch_time_ns +
        (if s.jit_mode_enabled = true
          then 0 else now - s.frame_start_time) ∧
    scenarioC7.stats.jit_frames = 5 ∧
    scenarioC7.stats.branch_frames = 5 ∧
    scenarioC7.stats.jit_calls = 15 ∧
    scenarioC7.stats.branch_calls = 20 := by
  refine ⟨?_, rfl, ?_, ?_, ?_, ?_, ?_, ?_, ?_, ?_, ?_, ?_⟩
  · simp only [R_JIT_FrameStart]
    split_ifs <;> rfl
  all_goals first
    | (simp only [R_JIT_FrameEnd]
       by_cases hm : s.jit_mode_enabled <;> simp [hm] <;> split_ifs <;> rfl)
    | decide

/-! ### CSV row structure -/

/-- Split a character list at commas (the CSV field separator). -/
def splitOnComma : List Char → List (List Char)
  | [] => [[]]
  | c :: rest =>
    match splitOnComma rest with
    | [] => [[]]
    | f :: fs => if c = ',' then [] :: f :: fs else (c :: f) :: fs

/-- The `i`-th comma-separated field of a row. -/
def csvField (row : String) (i : Nat) : String :=
  String.mk ((splitOnComma row.data).getD i [])

/-- Number of characters after the last `.` of a string. -/
def fracDigitCount (s : String) : Nat :=
  (s.data.reverse.takeWhile (fun c => c != '.')).length

theorem digitChar_ne_dot (n : Nat) : digitChar n ≠ '.' := by
  show Char.ofNat (48 + n % 10) ≠ '.'
  have h : n % 10 < 10 := Nat.mod_lt _ (by norm_num)
  have hall : ∀ m : Fin 10, Char.ofNat (48 + (m : Nat)) ≠ '.' := by decide
  exact hall ⟨n % 10, h⟩

theorem takeWhile_append_stop {p : Char → Bool} :
    ∀ (xs : List Char) (y : Char) (ys : List Char), (∀ c ∈ xs, p c = true) →
      p y = false → (xs ++ y :: ys).takeWhile p = xs
  | [], y, ys, _, hy => by simp [List.takeWhile_cons, hy]
  | x :: xs, y, ys, hx, hy => by
    have hpx : p x = true := hx x (by simp)
    simp only [List.cons_append, List.takeWhile_cons, hpx, if_true]
    rw [takeWhile_append_stop xs y ys (fun c hc => hx c (by simp [hc])) hy]

/-- `fmtMs d` always renders exactly `d` digits after the decimal point,
for every duration. -/
theorem fracDigitCount_fmtMs (d ns : Nat) :
    fracDigitCount (fmtMs d ns) = d := by
  unfold fmtMs fracDigitCount
  have hdot : ("." : String) = String.mk ['.'] := rfl
  rw [hdot]
  have hdata : ((Nat.repr (ns * 10 ^ d / 1000000 / 10 ^ d) ++
      String.mk ['.'] ++
      String.mk (fracDigitChars d (ns * 10 ^ d / 1000000 % 10 ^ d))).data)
      = (Nat.repr (ns * 10 ^ d / 1000000 / 10 ^ d)).data ++
        '.' :: fracDigitChars d (ns * 10 ^ d / 1000000 % 10 ^ d) := by
    rw [String.data_append, String.data_append]
    simp
  rw [hdata]
  rw [show ((Nat.repr (ns * 10 ^ d / 1000000 / 10 ^ d)).data ++
      '.' :: fracDigitChars d (ns * 10 ^ d / 1000000 % 10 ^ d)).reverse
      = (fracDigitChars d (ns * 10 ^ d / 1000000 % 10 ^ d)).reverse ++
        '.' :: (Nat.repr (ns * 10 ^ d / 1000000 / 10 ^ d)).data.reverse
    by simp]
  rw [takeWhile_append_stop _ _ _ ?hall (by rfl)]
  · simp [fracDigitChars]
  case hall =>
    intro c hc
    rw [List.mem_reverse] at hc
    obtain ⟨i, _, rfl⟩ := List.mem_map.mp hc
    have := digitChar_ne_dot ((ns * 10 ^ d / 1000000 % 10 ^ d) /
      10 ^ (d - 1 - i) % 10)
    simpa using this

/-- First logged frame: frame from 0 s to 0.125 s with no draw calls,
starting from the freshly initialized harness. -/
def logFrame1 : HarnessState :=
  R_JIT_FrameEnd 125000000 (R_JIT_FrameStart 0 (R_JIT_Init_state 0))

/-- Second logged frame: after a manual toggle to JIT mode, a frame from
0.25 s to 0.375 s with one draw call. -/
def logFrame2 : HarnessState :=
  R_JIT_FrameEnd 375000000
    (drawColumnCall (R_JIT_FrameStart 250000000 (R_JIT_Toggle logFrame1)))

/-- Claim C8 counterexample: the claim says `frame_time_ms` is formatted
to two decimal places; in the row actually appended by `R_JIT_FrameEnd`
(format string `"%.2f,%s,%.4f,%llu\n"`), the third field carries four
decimal places (`%.4f` — it is the first field, the timestamp, that gets
`%.2f`). -/
theorem claim_C8_counterexample :
    ¬ fracDigitCount (csvField (logFrame1.log_lines.getD 1 "") 2) = 2 := by
  decide

/-- Claim C8 as amended: when the log is open every `R_JIT_FrameEnd`
appends exactly one comma-separated row `timestamp_ms, mode_label,
frame_time_ms, draw_calls` with the mode label `JIT`/`BRANCH` chosen by
the frame's mode, the timestamp the time since the first recorded frame
rendered in milliseconds to TWO decimal places (so the first row's
timestamp reads `0.00`), and the frame time rendered in milliseconds to
FOUR decimal places; the header row (whose second field is named `mode`)
precedes all data rows, rows are appended in arrival order and never
rewritten, and the log is flushed once every 100 logged frames rather
than per frame. -/
theorem claim_C8_log_format (now : Nat) (s : HarnessState) (q t : Nat) :
    (R_JIT_FrameEnd now s).log_lines.take s.log_lines.length =
      s.log_lines ∧
    (R_JIT_FrameEnd now s).log_lines.length =
      s.log_lines.length + (if s.log_open = true then 1 else 0) ∧
    (R_JIT_FrameEnd now s).flush_count = s.flush_count +
      (if s.log_open = true ∧ s.flush_counter + 1 ≥ 100 then 1 else 0) ∧
    (R_JIT_FrameEnd now s).flush_counter =
      (if s.log_open = true then
        (if s.flush_counter + 1 ≥ 100 then 0 else s.flush_counter + 1)
      else s.flush_counter) ∧
    (R_JIT_Init_state t).log_lines = [csvHeader] ∧
    fracDigitCount (fmtMs 2 q) = 2 ∧
    fracDigitCount (fmtMs 4 q) = 4 ∧
    logFrame1.log_lines = [csvHeader, "0.00,BRANCH,125.0000,0"] ∧
    logFrame2.log_lines =
      [csvHeader, "0.00,BRANCH,125.0000,0", "250.00,JIT,125.0000,1"] ∧
    csvField "250.00,JIT,125.0000,1" 0 = "250.00" ∧
    csvField "250.00,JIT,125.0000,1" 1 = "JIT" ∧
    csvField "0.00,BRANCH,125.0000,0" 1 = "BRANCH" ∧
    fracDigitCount (csvField "250.00,JIT,125.0000,1" 0) = 2 ∧
    fracDigitCount (csvField "250.00,JIT,125.0000,1" 2) = 4 := by
  refine ⟨?_, ?_, ?_, ?_, rfl, fracDigitCount_fmtMs 2 q,
    fracDigitCount_fmtMs 4 q, by decide, by decide, by decide, by decide,
    by decide, by decide, by decide⟩
  · simp only [R_JIT_FrameEnd]
    by_cases hl : s.log_open
    all_goals simp [hl]
    all_goals split_ifs
    all_goals simp [List.take_left]
  · simp only [R_JIT_FrameEnd]
    by_cases hl : s.log_open
    all_goals simp [hl]
    all_goals split_ifs
    all_goals simp
  · simp only [R_JIT_FrameEnd]
    by_cases hl : s.log_open <;>
      by_cases hf : s.flush_counter + 1 ≥ 100 <;> simp [hl, hf]
  · simp only [R_JIT_FrameEnd]
    by_cases hl : s.log_open <;>
      by_cases hf : s.flush_counter + 1 ≥ 100 <;> simp [hl, hf]

end RJit
